import Mathlib

/-!
Verification of the rotation-selection and daily-schedule-assembly core of the
donna-assistant backend (`backend/donna/tools/schedule.py`), shallowly embedded
in Lean 4.  Python dictionaries holding the template and project records are
embedded as structures whose `Option` fields model `dict.get`; Python's stable
`list.sort(key=...)` is embedded as `List.insertionSort` over the key preorder
(stable sorts with respect to the same total preorder agree on all inputs),
except that the sort raises `TypeError` — modelled as `Except.error` — when
the keys mix offset-aware and naive datetimes; `datetime` values are either
naive (microseconds from the proleptic-Gregorian epoch, a `Nat`) or aware
(the UTC instant, an `Int`), so that comparison of encodings within a kind
matches Python's comparison of timestamps; `datetime.fromisoformat` is
modelled after CPython 3.7-3.10, including its any-single-character
date/time separator and `±HH:MM[:SS[.ffffff]]` offsets; functions that can
raise return `Except`/`Option`.
-/

namespace Donna

open List (Sublist)

open scoped List

/-! ### Calendar arithmetic (models Python `datetime.date`) -/

/-- Gregorian leap-year test, as in `calendar.isleap` / `datetime`. -/
def isLeap (y : Nat) : Bool :=
  (y % 4 == 0 && y % 100 != 0) || y % 400 == 0

/-- Number of days in month `m` of year `y` (0 for an out-of-range month). -/
def daysInMonth (y m : Nat) : Nat :=
  if m = 1 then 31
  else if m = 2 then (if isLeap y then 29 else 28)
  else if m = 3 then 31
  else if m = 4 then 30
  else if m = 5 then 31
  else if m = 6 then 30
  else if m = 7 then 31
  else if m = 8 then 31
  else if m = 9 then 30
  else if m = 10 then 31
  else if m = 11 then 30
  else if m = 12 then 31
  else 0

/-- Cumulative days before month `m` in a non-leap year. -/
def daysBeforeMonth (m : Nat) : Nat :=
  if m = 1 then 0
  else if m = 2 then 31
  else if m = 3 then 59
  else if m = 4 then 90
  else if m = 5 then 120
  else if m = 6 then 151
  else if m = 7 then 181
  else if m = 8 then 212
  else if m = 9 then 243
  else if m = 10 then 273
  else if m = 11 then 304
  else if m = 12 then 334
  else 365

/-- A calendar date, modelling Python `datetime.date` (proleptic Gregorian). -/
structure Date where
  year : Nat
  month : Nat
  day : Nat
deriving DecidableEq

/-- Day-of-year of a date (1-based). -/
def dayOfYear (dt : Date) : Nat :=
  daysBeforeMonth dt.month + dt.day +
    (if 2 < dt.month && isLeap dt.year then 1 else 0)

/-- Rata-die day number: `0001-01-01` is day 1 (a Monday), as in the proleptic
Gregorian calendar used by Python `datetime.date.toordinal`. -/
def rataDie (dt : Date) : Nat :=
  365 * (dt.year - 1) + (dt.year - 1) / 4 + (dt.year - 1) / 400 + dayOfYear dt
    - (dt.year - 1) / 100

/-- Capitalised weekday names as produced by `strftime("%A")`. -/
def dayNamesCap : List String :=
  ["Monday", "Tuesday", "Wednesday", "Thursday", "Friday", "Saturday", "Sunday"]

/-- Lowercase weekday names. -/
def dayNamesLower : List String :=
  ["monday", "tuesday", "wednesday", "thursday", "friday", "saturday", "sunday"]

/-- Weekday index of a date: 0 = Monday, ..., 6 = Sunday. -/
def weekdayIdx (dt : Date) : Nat := (rataDie dt + 6) % 7

/-- Embeds `get_day_name` (schedule.py line 91): `d.strftime("%A").lower()`. -/
def get_day_name (dt : Date) : String := dayNamesLower.getD (weekdayIdx dt) ""

/-- Month names as produced by `strftime("%B")`. -/
def monthName (m : Nat) : String :=
  ["January", "February", "March", "April", "May", "June", "July", "August",
    "September", "October", "November", "December"].getD (m - 1) ""

/-- Zero-padded two-digit decimal rendering, as in `strftime("%d")`. -/
def pad2 (n : Nat) : String :=
  if n < 10 then "0" ++ Nat.repr n else Nat.repr n

/-- Embeds `target_date.strftime("%A, %B %d, %Y")` (schedule.py line 150). -/
def strftimeLong (dt : Date) : String :=
  dayNamesCap.getD (weekdayIdx dt) "" ++ ", " ++ monthName dt.month ++ " " ++
    pad2 dt.day ++ ", " ++ Nat.repr dt.year

/-! ### String-parsing primitives (kernel-evaluable models of `str` methods) -/

/-- Splits a character list on a separator character; models Python
`str.split(sep)` for a one-character separator. -/
def splitOnChar (c : Char) : List Char → List (List Char)
  | [] => [[]]
  | x :: xs =>
    match splitOnChar c xs with
    | [] => if x = c then [[], []] else [[x]]
    | h :: t => if x = c then [] :: h :: t else (x :: h) :: t

/-- Decimal value of a digit character. -/
def digitVal (c : Char) : Nat := c.toNat - 48

/-- Parses a nonempty all-digit character list as a natural number. -/
def digitsToNat? : List Char → Option Nat
  | [] => none
  | l =>
    if l.all Char.isDigit then
      some (l.foldl (fun a c => a * 10 + digitVal c) 0)
    else none

/-- Embeds `last_worked.replace("Z", "")` (schedule.py line 116): removing
every occurrence of the one-character substring `"Z"`. -/
def stripZ (s : String) : String := ⟨s.data.filter (fun c => !(c == 'Z'))⟩

/-! ### Timestamps (models Python `datetime.datetime` values and ordering)

A parsed `datetime` is either naive or timezone-aware.  A naive value is
encoded as microseconds from the proleptic-Gregorian epoch (the rata-die day
number times 86 400 seconds, plus the time of day), so `Nat` order on
encodings coincides with chronological order.  An aware value is encoded by
its UTC instant: the same encoding minus the UTC offset, as an `Int`.  Python
orders naive against naive and aware against aware, and raises `TypeError`
when an order comparison mixes the two kinds. -/

/-- A Python `datetime`: naive, or aware with the offset already applied. -/
inductive PyDatetime where
  | naive : Nat → PyDatetime
  | aware : Int → PyDatetime
deriving DecidableEq

/-- Microsecond encoding of a naive timestamp's fields. -/
def epochMicros (y m d h mi s us : Nat) : Nat :=
  (((rataDie ⟨y, m, d⟩ * 24 + h) * 60 + mi) * 60 + s) * 1000000 + us

/-- Encoding of `datetime.min = datetime(1, 1, 1, 0, 0)`. -/
def dtMin : Nat := epochMicros 1 1 1 0 0 0 0

/-- Two-digit numeric field. -/
def d2 (a b : Char) : Option Nat :=
  if a.isDigit && b.isDigit then some (digitVal a * 10 + digitVal b) else none

/-- Three-digit numeric field. -/
def d3 (a b c : Char) : Option Nat :=
  if a.isDigit && b.isDigit && c.isDigit then
    some ((digitVal a * 10 + digitVal b) * 10 + digitVal c)
  else none

/-- Four-digit numeric field. -/
def d4 (a b c e : Char) : Option Nat :=
  if a.isDigit && b.isDigit && c.isDigit && e.isDigit then
    some (((digitVal a * 10 + digitVal b) * 10 + digitVal c) * 10 + digitVal e)
  else none

/-- Embeds CPython's `_parse_hh_mm_ss_ff` (3.7-3.10): `HH[:MM[:SS[.fff[fff]]]]`
with zero-padded two-digit fields and a 3- or 6-digit fraction.  Numeric
fields are modelled digits-only (CPython's `int()` additionally tolerates a
leading space or `+`, an undocumented artifact).  Returns
`(hour, minute, second, microsecond)` without range validation; ranges are
checked by the `datetime`/`timezone` constructors, modelled at the call
sites. -/
def parse_hh_mm_ss_ff : List Char → Option (Nat × Nat × Nat × Nat)
  | [h1, h2] => (d2 h1 h2).map (fun h => (h, 0, 0, 0))
  | [h1, h2, ':', m1, m2] =>
    match d2 h1 h2, d2 m1 m2 with
    | some h, some mi => some (h, mi, 0, 0)
    | _, _ => none
  | [h1, h2, ':', m1, m2, ':', s1, s2] =>
    match d2 h1 h2, d2 m1 m2, d2 s1 s2 with
    | some h, some mi, some s => some (h, mi, s, 0)
    | _, _, _ => none
  | [h1, h2, ':', m1, m2, ':', s1, s2, '.', f1, f2, f3] =>
    match d2 h1 h2, d2 m1 m2, d2 s1 s2, d3 f1 f2 f3 with
    | some h, some mi, some s, some f => some (h, mi, s, f * 1000)
    | _, _, _, _ => none
  | [h1, h2, ':', m1, m2, ':', s1, s2, '.', f1, f2, f3, f4, f5, f6] =>
    match d2 h1 h2, d2 m1 m2, d2 s1 s2, d3 f1 f2 f3, d3 f4 f5 f6 with
    | some h, some mi, some s, some fhi, some flo =>
      some (h, mi, s, fhi * 1000 + flo)
    | _, _, _, _, _ => none
  | _ => none

/-- Splits a character list at the first occurrence of `c`, or `none` when
`c` does not occur; models `str.find`. -/
def splitFirst (c : Char) : List Char → Option (List Char × List Char)
  | [] => none
  | x :: xs =>
    if x = c then some ([], xs)
    else
      match splitFirst c xs with
      | some (a, b) => some (x :: a, b)
      | none => none

/-- Embeds the offset handling of `_parse_isoformat_time`: the offset string
must have length 5, 8 or 15 (`HH:MM[:SS[.ffffff]]`), and the `timezone`
constructor requires the offset magnitude to be strictly below 24 hours.
Returns the signed offset in microseconds. -/
def parseTzOffset (sign : Char) (tzstr : List Char) : Option Int :=
  if tzstr.length = 5 ∨ tzstr.length = 8 ∨ tzstr.length = 15 then
    match parse_hh_mm_ss_ff tzstr with
    | some (th, tm, ts, tus) =>
      let off : Nat := (th * 3600 + tm * 60 + ts) * 1000000 + tus
      if off < 24 * 3600 * 1000000 then
        some (if sign = '-' then -(off : Int) else (off : Int))
      else none
    | none => none
  else none

/-- Embeds CPython's `_parse_isoformat_time` (3.7-3.10): a time of day
optionally followed by a UTC offset; the string is split at its first `-`
when one occurs anywhere, else at its first `+`. -/
def parse_isoformat_time (l : List Char) :
    Option ((Nat × Nat × Nat × Nat) × Option Int) :=
  if l.length < 2 then none
  else
    match splitFirst '-' l with
    | some (timestr, tzstr) =>
      match parse_hh_mm_ss_ff timestr, parseTzOffset '-' tzstr with
      | some t, some off => some (t, some off)
      | _, _ => none
    | none =>
      match splitFirst '+' l with
      | some (timestr, tzstr) =>
        match parse_hh_mm_ss_ff timestr, parseTzOffset '+' tzstr with
        | some t, some off => some (t, some off)
        | _, _ => none
      | none => (parse_hh_mm_ss_ff l).map (fun t => (t, none))

/-- Embeds CPython's `_parse_isoformat_date` (3.7-3.10): exactly
`YYYY-MM-DD` with digit fields, validated by the `date` constructor (year at
least 1, month 1-12, day within the month). -/
def parse_isoformat_date : List Char → Option (Nat × Nat × Nat)
  | [y1, y2, y3, y4, '-', m1, m2, '-', e1, e2] =>
    match d4 y1 y2 y3 y4, d2 m1 m2, d2 e1 e2 with
    | some y, some m, some d =>
      if 1 ≤ y ∧ 1 ≤ m ∧ m ≤ 12 ∧ 1 ≤ d ∧ d ≤ daysInMonth y m then
        some (y, m, d)
      else none
    | _, _, _ => none
  | _ => none

/-- Embeds `datetime.fromisoformat` as in CPython 3.7-3.10, whose documented
format is `YYYY-MM-DD[*HH[:MM[:SS[.fff[fff]]]][±HH:MM[:SS[.ffffff]]]]` with
`*` any single character: the implementation takes `date_string[0:10]` as the
date and `date_string[11:]` as the time, so the character at index 10 is
never inspected.  The result is naive without an offset and aware (the UTC
instant) with one; `none` models the `ValueError` paths, including the
`datetime` constructor's range checks on hour, minute and second. -/
def fromisoformat (s : String) : Option PyDatetime :=
  let l := s.data
  match parse_isoformat_date (l.take 10) with
  | none => none
  | some (y, m, d) =>
    match l.drop 11 with
    | [] => some (.naive (epochMicros y m d 0 0 0 0))
    | tstr =>
      match parse_isoformat_time tstr with
      | none => none
      | some ((h, mi, sec, us), tz) =>
        if h < 24 ∧ mi < 60 ∧ sec < 60 then
          match tz with
          | none => some (.naive (epochMicros y m d h mi sec us))
          | some off =>
            some (.aware ((epochMicros y m d h mi sec us : Int) - off))
        else none

/-! ### Project records (rows of the Supabase `projects` table)

A project row is a JSON object; each field models `p.get("<key>")`, with
`none` standing for an absent key (or a JSON `null`). -/

/-- A project record as read by the schedule tools. -/
structure Project where
  id : Option String := none
  name : Option String := none
  path : Option String := none
  type : Option String := none
  priority : Option Nat := none
  daily : Option Bool := none
  last_worked : Option String := none
  prd_status_path : Option String := none
deriving DecidableEq

/-- Python truthiness of an optional string: `None` and `""` are falsy. -/
def optStrTruthy : Option String → Bool
  | some s => !(s == "")
  | none => false

/-- Embeds the candidate filter of `select_rotation_projects` (schedule.py
lines 106-109): `p.get("id") not in exclude_daily and p.get("path") and not
p.get("daily")`. -/
def isCandidate (exclude_daily : List String) (p : Project) : Bool :=
  (match p.id with
    | some i => !(decide (i ∈ exclude_daily))
    | none => true)
  && optStrTruthy p.path
  && (match p.daily with
    | some b => !b
    | none => true)

/-- Embeds `p.get("priority", 999)`. -/
def priorityOf (p : Project) : Nat := p.priority.getD 999

/-- Datetime component of the sort key of `select_rotation_projects`
(schedule.py lines 112-119): a truthy `last_worked` that parses (after
removing every `"Z"`) is its parsed datetime; otherwise — absent, empty, or
the parse raises and the bare `except` swallows it — `datetime.min`. -/
def lastWorkedDt (p : Project) : PyDatetime :=
  match p.last_worked with
  | some s =>
    if s = "" then .naive dtMin
    else
      match fromisoformat (stripZ s) with
      | some t => t
      | none => .naive dtMin
  | none => .naive dtMin

/-- Embeds `sort_key` (schedule.py line 112): the pair
`(datetime, priority)` compared lexicographically by Python's tuple order. -/
def sort_key (p : Project) : PyDatetime × Nat := (lastWorkedDt p, priorityOf p)

/-- Kind of a datetime: 0 for naive, 1 for aware. -/
def dtClass : PyDatetime → Nat
  | .naive _ => 0
  | .aware _ => 1

/-- Encoded instant of a datetime. -/
def dtVal : PyDatetime → Int
  | .naive t => (t : Int)
  | .aware u => u

/-- Strict order on datetimes: within a kind it is Python's `datetime`
comparison (chronological for naive values, UTC-instant for aware values);
across kinds Python raises `TypeError` instead, and this relation extends the
partial order arbitrarily (naive before aware).  The selector only sorts with
it after checking that no such mixed comparison would occur. -/
def dtLT (a b : PyDatetime) : Prop :=
  dtClass a < dtClass b ∨ (dtClass a = dtClass b ∧ dtVal a < dtVal b)

/-- The ordering in which Python's `list.sort(key=sort_key)` sorts the
candidates: lexicographic comparison of the `(datetime, priority)` tuples. -/
def keyLE (p q : Project) : Prop :=
  dtLT (lastWorkedDt p) (lastWorkedDt q) ∨
    (lastWorkedDt p = lastWorkedDt q ∧ priorityOf p ≤ priorityOf q)

instance : DecidableRel dtLT := fun a b =>
  inferInstanceAs (Decidable (dtClass a < dtClass b ∨
    (dtClass a = dtClass b ∧ dtVal a < dtVal b)))

instance : DecidableRel keyLE := fun p q =>
  inferInstanceAs (Decidable (dtLT (lastWorkedDt p) (lastWorkedDt q) ∨
    (lastWorkedDt p = lastWorkedDt q ∧ priorityOf p ≤ priorityOf q)))

theorem dt_ext {a b : PyDatetime} (hc : dtClass a = dtClass b)
    (hv : dtVal a = dtVal b) : a = b := by
  cases a <;> cases b <;> simp [dtClass] at hc <;> simpa [dtVal] using hv

theorem dtLT_trans {a b c : PyDatetime} (h1 : dtLT a b) (h2 : dtLT b c) :
    dtLT a c := by
  unfold dtLT at h1 h2 ⊢
  omega

instance : IsTotal Project keyLE := by
  refine ⟨fun p q => ?_⟩
  unfold keyLE dtLT
  by_cases hc : dtClass (lastWorkedDt p) = dtClass (lastWorkedDt q)
  · by_cases hv : dtVal (lastWorkedDt p) = dtVal (lastWorkedDt q)
    · have hab := dt_ext hc hv
      rcases Nat.le_total (priorityOf p) (priorityOf q) with h | h
      · exact Or.inl (Or.inr ⟨hab, h⟩)
      · exact Or.inr (Or.inr ⟨hab.symm, h⟩)
    · rcases lt_or_gt_of_ne hv with h | h
      · exact Or.inl (Or.inl (Or.inr ⟨hc, h⟩))
      · exact Or.inr (Or.inl (Or.inr ⟨hc.symm, h⟩))
  · rcases lt_or_gt_of_ne hc with h | h
    · exact Or.inl (Or.inl (Or.inl h))
    · exact Or.inr (Or.inl (Or.inl h))

instance : IsTrans Project keyLE := by
  refine ⟨fun p q r hpq hqr => ?_⟩
  rcases hpq with hpq | ⟨heq1, hp1⟩
  · rcases hqr with hqr | ⟨heq2, _⟩
    · exact Or.inl (dtLT_trans hpq hqr)
    · exact Or.inl (heq2 ▸ hpq)
  · rcases hqr with hqr | ⟨heq2, hq1⟩
    · exact Or.inl (heq1 ▸ hqr)
    · exact Or.inr ⟨heq1.trans heq2, le_trans hp1 hq1⟩

/-- Candidate whose sort key is an aware datetime. -/
def isAware (p : Project) : Bool :=
  match lastWorkedDt p with
  | .aware _ => true
  | .naive _ => false

/-- Condition under which `candidates.sort(key=sort_key)` raises `TypeError`
(schedule.py line 121): Python's sort compares every adjacent pair of the
input while detecting runs, and an order comparison between an offset-aware
and a naive datetime key raises, so the sort raises exactly when the
candidate list contains keys of both kinds. -/
def sortRaises (candidates : List Project) : Bool :=
  candidates.any (fun p => isAware p) && candidates.any (fun p => !(isAware p))

/-- The sorted candidate list (the state `candidates` would have after a
non-raising `candidates.sort(key=sort_key)`): a stable sort by the key
preorder, embedded as `List.insertionSort`; stable sorting is unique for a
total preorder, so this agrees with Timsort. -/
def rotationSort (projects : List Project) (exclude_daily : List String) :
    List Project :=
  List.insertionSort keyLE (projects.filter (isCandidate exclude_daily))

/-- Embeds `select_rotation_projects` (schedule.py lines 96-124) over an
explicit snapshot of the project store (the Python function reads the list
via `load_projects_from_supabase()`).  The uncaught `TypeError` that
`candidates.sort` raises on a snapshot mixing offset-aware and naive
`last_worked` keys is modelled as `Except.error`; otherwise the top
`num_slots` of the sorted candidates are returned. -/
def select_rotation_projects (projects : List Project)
    (exclude_daily : List String) (num_slots : Nat) :
    Except String (List Project) :=
  if sortRaises (projects.filter (isCandidate exclude_daily)) then
    .error "TypeError: cannot compare offset-naive and offset-aware datetimes"
  else
    .ok ((rotationSort projects exclude_daily).take num_slots)

/-! ### Helper lemmas about stable sorting and `take` -/

/-- In a duplicate-free list, a pair that occurs in order still occurs in order
within any prefix that contains the second element. -/
theorem pair_sublist_take {α : Type _} {p q : α} :
    ∀ {l : List α} {n : Nat}, l.Nodup → [p, q] <+ l → q ∈ l.take n →
      [p, q] <+ l.take n := by
  intro l
  induction l with
  | nil => intro n _ h _; exact absurd (List.sublist_nil.mp h) (by simp)
  | cons x xs ih =>
    intro n hnd h hq
    match n with
    | 0 => simp at hq
    | Nat.succ m =>
      simp only [List.take_succ_cons] at hq ⊢
      have hx : x ∉ xs := (List.nodup_cons.mp hnd).1
      cases h with
      | cons _ h' =>
        rcases List.mem_cons.mp hq with hqe | hqm
        · exact absurd (h'.subset (by simp)) (hqe ▸ hx)
        · exact (ih (List.nodup_cons.mp hnd).2 h' hqm).cons x
      | cons₂ _ h'' =>
        rcases List.mem_cons.mp hq with hqe | hqm
        · exact absurd (List.singleton_sublist.mp h'') (hqe ▸ hx)
        · exact (List.singleton_sublist.mpr hqm).cons₂ p

/-! ### Concrete example projects used in witnesses and counterexamples -/

/-- Eligible project that was never worked on. -/
def pNever : Project := { id := some "n", path := some "y", priority := some 5 }

/-- Eligible project whose `last_worked` string does not parse as ISO-8601. -/
def pMalformed : Project :=
  { id := some "m", path := some "x", priority := some 5,
    last_worked := some "garbage" }

/-- Eligible project last worked on 2024-01-02 (naive after the Z-strip). -/
def pWorked : Project :=
  { id := some "w", path := some "z", priority := some 5,
    last_worked := some "2024-01-02T00:00:00Z" }

/-- Eligible project whose `last_worked` carries a UTC offset, so it parses
to an offset-aware datetime (the Z-strip does not touch it). -/
def pOffset : Project :=
  { id := some "o", path := some "w", priority := some 5,
    last_worked := some "2024-01-02T00:00:00+00:00" }

/-- Eligible never-worked project, first tie participant. -/
def pTie1 : Project := { id := some "t1", path := some "x", priority := some 5 }

/-- Eligible never-worked project, second tie participant. -/
def pTie2 : Project := { id := some "t2", path := some "y", priority := some 5 }

/-! ### Claims about the Rotation Selector -/

/-- C1 (amended): whenever `select_rotation_projects` returns a list (does
not raise), that list is ordered ascending by the lexicographic key (parsed
`last_worked` datetime, priority), where `last_worked = None`, an empty
string, and an unparseable string all map to naive `datetime.min`; every
never-worked eligible project ranks before every eligible project whose
`last_worked` parses to a naive timestamp strictly later than `datetime.min`;
and when two candidates have equal datetime keys, the one with the lower
priority value ranks first. -/
theorem select_rotation_order (projects : List Project) (ex : List String)
    (n : Nat) (l : List Project)
    (hok : select_rotation_projects projects ex n = .ok l) :
    l.Pairwise keyLE
    ∧ (∀ p q : Project, p.last_worked = none →
        (∃ tq, lastWorkedDt q = .naive tq ∧ dtMin < tq) → ¬ [q, p] <+ l)
    ∧ (∀ p q : Project, lastWorkedDt p = lastWorkedDt q →
        priorityOf p < priorityOf q → ¬ [q, p] <+ l) := by
  have hl : l = (rotationSort projects ex).take n := by
    unfold select_rotation_projects at hok
    split at hok
    · exact absurd hok (by simp)
    · simpa using hok.symm
  have hsorted : l.Pairwise keyLE := by
    rw [hl]
    exact (List.sorted_insertionSort keyLE _).sublist (List.take_sublist _ _)
  refine ⟨hsorted, ?_, ?_⟩
  · intro p q hp hq hsub
    obtain ⟨tq, hq1, hq2⟩ := hq
    have hqp : keyLE q p :=
      (List.pairwise_cons.mp (hsorted.sublist hsub)).1 p (by simp)
    have hpmin : lastWorkedDt p = .naive dtMin := by simp [lastWorkedDt, hp]
    rcases hqp with hqp | ⟨heq, _⟩
    · rw [hq1, hpmin] at hqp
      unfold dtLT at hqp
      simp [dtClass, dtVal] at hqp
      omega
    · rw [hq1, hpmin] at heq
      simp at heq
      omega
  · intro p q hts hpr hsub
    have hqp : keyLE q p :=
      (List.pairwise_cons.mp (hsorted.sublist hsub)).1 p (by simp)
    rcases hqp with hqp | ⟨heq, hle⟩
    · rw [hts] at hqp
      unfold dtLT at hqp
      omega
    · omega

/-- Witness for C1's amended theorem: on a concrete snapshot the selection
succeeds and the never-worked `pNever` cannot appear after the 2024-worked
`pWorked`. -/
theorem select_rotation_order_witness :
    select_rotation_projects [pNever, pWorked] [] 2 = .ok [pNever, pWorked] ∧
      ¬ [pWorked, pNever] <+ [pNever, pWorked] :=
  ⟨rfl,
    (select_rotation_order [pNever, pWorked] [] 2 [pNever, pWorked] rfl).2.1
      pNever pWorked rfl
      ⟨epochMicros 2024 1 2 0 0 0 0, by decide, by decide⟩⟩

/-- Counterexample to C1 as stated: `pMalformed` has a concrete (but
unparseable) `last_worked`, yet the never-worked `pNever` of equal priority
does not rank before it — the selector returns `[pMalformed, pNever]`. -/
theorem select_rotation_order_counterexample :
    pMalformed.last_worked = some "garbage" ∧ pNever.last_worked = none ∧
      select_rotation_projects [pMalformed, pNever] [] 2 =
        .ok [pMalformed, pNever] :=
  ⟨rfl, rfl, rfl⟩

/-- C2: every project in a list returned by `select_rotation_projects` comes
from the input list, is not marked daily, has a nonempty path, and has no id
in the excluded set. -/
theorem select_rotation_filter_sound (projects : List Project)
    (ex : List String) (n : Nat) (l : List Project) (p : Project)
    (hok : select_rotation_projects projects ex n = .ok l) (hp : p ∈ l) :
    p ∈ projects ∧ p.daily ≠ some true ∧
      (∃ s, p.path = some s ∧ s ≠ "") ∧ ∀ i, p.id = some i → i ∉ ex := by
  have hl : l = (rotationSort projects ex).take n := by
    unfold select_rotation_projects at hok
    split at hok
    · exact absurd hok (by simp)
    · simpa using hok.symm
  rw [hl] at hp
  have h1 := List.mem_of_mem_take hp
  have h2 : p ∈ projects.filter (isCandidate ex) :=
    (List.mem_insertionSort keyLE).mp h1
  have h3 := List.mem_filter.mp h2
  have hc := h3.2
  simp only [isCandidate, Bool.and_eq_true] at hc
  obtain ⟨⟨hid, hpath⟩, hdaily⟩ := hc
  refine ⟨h3.1, ?_, ?_, ?_⟩
  · intro hd; rw [hd] at hdaily; simp at hdaily
  · cases hpa : p.path with
    | none => rw [hpa] at hpath; simp [optStrTruthy] at hpath
    | some s =>
      rw [hpa] at hpath
      exact ⟨s, rfl, by simpa [optStrTruthy] using hpath⟩
  · intro i hi hmem
    rw [hi] at hid
    simp only [Bool.not_eq_true', decide_eq_false_iff_not] at hid
    exact hid hmem

/-- Witness for C2 at a concrete input: the selected `pNever` comes from the
input, is not daily, and has a nonempty path. -/
theorem select_rotation_filter_sound_witness :
    pNever ∈ [pNever] ∧ pNever.daily ≠ some true ∧
      ∃ s, pNever.path = some s ∧ s ≠ "" := by
  have h := select_rotation_filter_sound [pNever] [] 1 [pNever] pNever rfl
    (by decide)
  exact ⟨h.1, h.2.1, h.2.2.1⟩

/-- C3 (amended): whenever `select_rotation_projects` returns a list, that
list has at most `num_slots` projects and never more than the number of
eligible candidates, and when fewer than `num_slots` eligible candidates
exist every eligible candidate is returned; the function returns without
error exactly when the eligible candidates do not mix offset-aware and naive
`last_worked` datetimes — on a mixed snapshot the underlying sort raises
`TypeError`. -/
theorem select_rotation_slots_bound (projects : List Project)
    (ex : List String) (n : Nat) :
    (∀ l, select_rotation_projects projects ex n = .ok l →
      l.length ≤ n ∧
        l.length ≤ (projects.filter (isCandidate ex)).length ∧
        ((projects.filter (isCandidate ex)).length < n →
          ∀ p ∈ projects.filter (isCandidate ex), p ∈ l)) ∧
      ((select_rotation_projects projects ex n).isOk = true ↔
        sortRaises (projects.filter (isCandidate ex)) = false) := by
  constructor
  · intro l hok
    have hl : l = (rotationSort projects ex).take n := by
      unfold select_rotation_projects at hok
      split at hok
      · exact absurd hok (by simp)
      · simpa using hok.symm
    subst hl
    refine ⟨List.length_take_le n _, ?_, ?_⟩
    · calc ((rotationSort projects ex).take n).length
          ≤ (rotationSort projects ex).length :=
            (List.take_sublist _ _).length_le
        _ = (projects.filter (isCandidate ex)).length :=
            List.length_insertionSort keyLE _
    · intro h p hp
      rw [List.take_of_length_le]
      · exact (List.mem_insertionSort keyLE).mpr hp
      · unfold rotationSort
        rw [List.length_insertionSort]
        omega
  · cases hr : sortRaises (projects.filter (isCandidate ex)) <;>
      simp [select_rotation_projects, hr, Except.isOk, Except.toBool]

/-- Witness for C3 at a concrete input: with one eligible candidate and two
slots, the selection succeeds and returns the single candidate. -/
theorem select_rotation_slots_bound_witness :
    pNever ∈ [pNever] ∧
      (select_rotation_projects [pNever] [] 2).isOk = true :=
  ⟨((select_rotation_slots_bound [pNever] [] 2).1 [pNever] rfl).2.2 (by decide)
      pNever (by decide),
    (select_rotation_slots_bound [pNever] [] 2).2.mpr (by decide)⟩

/-- Counterexample to C3 as stated: with one offset-aware and one naive
candidate the sort raises `TypeError`, so `select_rotation_projects` does not
"never error". -/
theorem select_rotation_slots_bound_counterexample :
    select_rotation_projects [pOffset, pNever] [] 2 =
      .error
        "TypeError: cannot compare offset-naive and offset-aware datetimes" :=
  rfl

/-- C9: the tie-break among candidates with equal sort keys is stable input
order — for a duplicate-free project list, two eligible candidates with equal
`(last_worked, priority)` keys appear in a returned selection in the same
relative order as in the input list. -/
theorem select_rotation_stable_tie_break (projects : List Project)
    (ex : List String) (n : Nat) (p q : Project) (l : List Project)
    (hnd : projects.Nodup) (hpq : [p, q] <+ projects)
    (hp : isCandidate ex p = true) (hq : isCandidate ex q = true)
    (hkey : sort_key p = sort_key q)
    (hok : select_rotation_projects projects ex n = .ok l) (hmem : q ∈ l) :
    [p, q] <+ l := by
  have hl : l = (rotationSort projects ex).take n := by
    unfold select_rotation_projects at hok
    split at hok
    · exact absurd hok (by simp)
    · simpa using hok.symm
  subst hl
  have hle : keyLE p q := by
    have h1 : lastWorkedDt p = lastWorkedDt q := congrArg Prod.fst hkey
    have h2 : priorityOf p = priorityOf q := congrArg Prod.snd hkey
    exact Or.inr ⟨h1, le_of_eq h2⟩
  have hfil : [p, q] <+ projects.filter (isCandidate ex) := by
    have h := List.Sublist.filter (isCandidate ex) hpq
    simpa [List.filter_cons, hp, hq] using h
  have hsorted : [p, q] <+ rotationSort projects ex :=
    List.pair_sublist_insertionSort hle hfil
  have hnd2 : (rotationSort projects ex).Nodup :=
    (List.perm_insertionSort keyLE _).nodup_iff.mpr (hnd.filter _)
  exact pair_sublist_take hnd2 hsorted hmem

/-- Witness for C9 at a concrete input: two equally-ranked candidates are
returned in input order. -/
theorem select_rotation_stable_tie_break_witness :
    [pTie1, pTie2] <+ [pTie1, pTie2] :=
  select_rotation_stable_tie_break [pTie1, pTie2] [] 2 pTie1 pTie2
    [pTie1, pTie2] (by decide) (by decide) (by decide) (by decide) (by decide)
    rfl (by decide)

/-- C10: a candidate whose `last_worked` string fails ISO-8601 parsing is not
rejected and contributes no error — its sort key is the naive
`(datetime.min, priority)` (in particular it is not offset-aware, so it
cannot trigger the sort's `TypeError`), its candidacy is unchanged, and it
ranks identically to a never-worked project of the same priority. -/
theorem select_rotation_malformed_last_worked (p : Project) (s : String)
    (hs : p.last_worked = some s)
    (hparse : fromisoformat (stripZ s) = none) :
    sort_key p = (.naive dtMin, priorityOf p) ∧
      isAware p = false ∧
      (∀ ex, isCandidate ex p = isCandidate ex { p with last_worked := none })
      ∧ ∀ q : Project, q.last_worked = none → priorityOf q = priorityOf p →
          sort_key q = sort_key p := by
  have hts : lastWorkedDt p = .naive dtMin := by
    unfold lastWorkedDt
    rw [hs]
    by_cases he : s = ""
    · simp [he]
    · simp [he, hparse]
  refine ⟨by simp [sort_key, hts], by simp [isAware, hts], fun ex => rfl,
    fun q hq hpr => ?_⟩
  have hq' : lastWorkedDt q = .naive dtMin := by simp [lastWorkedDt, hq]
  simp [sort_key, hq', hts, hpr]

/-- Witness for C10 at a concrete input: the malformed-timestamp project gets
the minimal naive sort key. -/
theorem select_rotation_malformed_last_worked_witness :
    sort_key pMalformed = (.naive dtMin, priorityOf pMalformed) :=
  (select_rotation_malformed_last_worked pMalformed "garbage" rfl
    (by decide)).1

/-! ### Weekly template (the `weekly_template` settings JSON)

The template dictionary is embedded as structures whose `Option` fields model
`dict.get`: `none` is an absent key.  Keys read with direct subscript access
(`block["start"]`) are mandatory fields.  The non-ASCII characters below
reproduce the source file's string literals byte for byte. -/

/-- The `gym` personal block: a dict with `time`, optional `days`, and
optional `duration_minutes` (schedule.py lines 51-55, 160-162). -/
structure GymConfig where
  time : String
  days : Option (List String) := none
  duration_minutes : Option Nat := none
deriving DecidableEq

/-- The `personal_blocks` section of the template (schedule.py lines 49-59,
152-171).  A `gym` entry that is absent or an empty dict is `none` (an empty
dict is falsy, so the code skips it either way). -/
structure PersonalBlocks where
  wake : Option String := none
  gym : Option GymConfig := none
  stretch : Option String := none
  shower : Option String := none
  ready : Option String := none
deriving DecidableEq

/-- A work block: `start`/`end` are read with subscript access, so they are
mandatory; the `end` key is embedded as the field `stop` (`end` is a Lean
keyword); `description` and `project` model `block.get(...)`. -/
structure WorkBlock where
  start : String
  stop : String
  description : Option String := none
  project : Option String := none
deriving DecidableEq

/-- The `work_blocks` section: the four block names the assembler reads
(schedule.py lines 60-82, 176-213).  An absent or empty-dict block is `none`
(an empty dict is falsy, so the code skips it either way). -/
structure WorkBlocks where
  primary : Option WorkBlock := none
  break_1 : Option WorkBlock := none
  rotation_1 : Option WorkBlock := none
  rotation_2 : Option WorkBlock := none
deriving DecidableEq

/-- The `evening` section (schedule.py lines 83-87, 216-224). -/
structure EveningBlocks where
  end_work : Option String := none
  dinner : Option String := none
  wind_down : Option String := none
deriving DecidableEq

/-- A weekly schedule template.  An absent or empty `evening` dict is `none`
(an empty dict is falsy, so the code skips the section either way). -/
structure Template where
  personal_blocks : PersonalBlocks
  work_blocks : WorkBlocks
  evening : Option EveningBlocks := none
deriving DecidableEq

/-- Embeds `get_default_template` (schedule.py lines 46-88). -/
def get_default_template : Template :=
  { personal_blocks :=
      { wake := some "7:00 AM",
        gym := some
          { time := "8:00 AM",
            days := some ["monday", "wednesday", "friday"],
            duration_minutes := some 90 },
        stretch := some "9:30 AM",
        shower := some "10:00 AM",
        ready := some "10:30 AM" },
    work_blocks :=
      { primary := some
          { start := "12:00 PM", stop := "3:00 PM",
            project := some "sigmavue",
            description := some "Sigmavue Deep Work (Non-negotiable)" },
        break_1 := some
          { start := "3:00 PM", stop := "3:30 PM",
            description := some "Break / Reset" },
        rotation_1 := some
          { start := "3:30 PM", stop := "5:00 PM",
            description := some "Client/Personal Project Rotation Slot 1" },
        rotation_2 := some
          { start := "5:00 PM", stop := "7:00 PM",
            description := some "Client/Personal Project Rotation Slot 2" } },
    evening := some
      { end_work := some "7:00 PM", dinner := some "7:30 PM",
        wind_down := some "9:00 PM" } }

/-- Outcome of looking up the `weekly_template` settings row, the input state
of `load_weekly_template` (schedule.py lines 22-43): the client can be
unavailable (falsy), the query can raise, the row can be missing, or the row's
`value` can be a JSON object or a string (whose `json.loads` either yields a
template or raises, both inside the same `try`). -/
inductive StoreResult where
  | unavailable : StoreResult
  | raised : StoreResult
  | notFound : StoreResult
  | foundValue : Template → StoreResult
  | foundString : Option Template → StoreResult
deriving DecidableEq

/-- Embeds `load_weekly_template` (schedule.py lines 22-43): every path that
does not produce a stored template returns `get_default_template`. -/
def load_weekly_template : StoreResult → Template
  | .unavailable => get_default_template
  | .raised => get_default_template
  | .notFound => get_default_template
  | .foundValue t => t
  | .foundString (some t) => t
  | .foundString none => get_default_template

/-! ### Schedule assembly (`generate_daily_schedule`, schedule.py 128-238)

Each `lines.append(f"...")` of the source becomes a list element built by
explicit string concatenation; conditional appends become empty lists. -/

/-- Line appended for a truthy optional string, by the given line maker. -/
def optLine (v : Option String) (mk : String → String) : List String :=
  match v with
  | some s => if s = "" then [] else [mk s]
  | none => []

/-- The wake line (schedule.py line 158). -/
def wakeLine (s : String) : String := "- **" ++ s ++ "** - Wake up"

/-- The gym line (schedule.py line 162). -/
def gymLine (g : GymConfig) : String :=
  "- **" ++ g.time ++ "** - Gym (" ++ Nat.repr (g.duration_minutes.getD 90) ++
    " min)"

/-- The stretch line (schedule.py line 165). -/
def stretchLine (s : String) : String := "- **" ++ s ++ "** - Stretch / Recovery"

/-- The shower line (schedule.py line 168). -/
def showerLine (s : String) : String := "- **" ++ s ++ "** - Shower"

/-- The ready line (schedule.py line 171). -/
def readyLine (s : String) : String := "- **" ++ s ++ "** - Ready / Personal time"

/-- The gym block's contribution (schedule.py lines 160-162): included only
when the date's lowercase weekday name is literally a member of the block's
`days` list, which defaults to `[]` when the key is absent. -/
def gymLines (g : Option GymConfig) (d : Date) : List String :=
  match g with
  | some gc =>
    if get_day_name d ∈ gc.days.getD [] then [gymLine gc] else []
  | none => []

/-- The morning-routine section (schedule.py lines 152-171). -/
def morningLines (t : Template) (d : Date) : List String :=
  "## ðŸŒ… Morning Routine\n" ::
    (optLine t.personal_blocks.wake wakeLine ++
      gymLines t.personal_blocks.gym d ++
      optLine t.personal_blocks.stretch stretchLine ++
      optLine t.personal_blocks.shower showerLine ++
      optLine t.personal_blocks.ready readyLine)

/-- The primary (fixed) block's contribution (schedule.py lines 179-186). -/
def primaryLines (wb : Option WorkBlock) (projects : List Project) :
    List String :=
  match wb with
  | some primary =>
    let project_id := primary.project.getD "sigmavue"
    let project := projects.find? (fun p => p.id == some project_id)
    let project_name :=
      match project with
      | some p => p.name.getD "Sigmavue"
      | none => "Sigmavue"
    ["### " ++ primary.start ++ " - " ++ primary.stop ++ ": " ++
        project_name ++ " ðŸ”¥",
      "  â†’ Non-negotiable deep work block"]
  | none => []

/-- The break block's contribution (schedule.py lines 189-191). -/
def breakLines (wb : Option WorkBlock) : List String :=
  match wb with
  | some b => ["\n### " ++ b.start ++ " - " ++ b.stop ++ ": Break â˜•"]
  | none => []

/-- The first rotation slot's contribution (schedule.py lines 199-205). -/
def rotation1Lines (wb : Option WorkBlock) (rot : List Project) : List String :=
  match wb with
  | some b =>
    match rot with
    | p :: _ =>
      ["\n### " ++ b.start ++ " - " ++ b.stop ++ ": " ++
        p.name.getD "Project 1"]
    | [] =>
      ["\n### " ++ b.start ++ " - " ++ b.stop ++ ": " ++
        b.description.getD "Project Rotation 1"]
  | none => []

/-- The second rotation slot's contribution (schedule.py lines 207-213). -/
def rotation2Lines (wb : Option WorkBlock) (rot : List Project) : List String :=
  match wb with
  | some b =>
    match rot with
    | _ :: q :: _ =>
      ["\n### " ++ b.start ++ " - " ++ b.stop ++ ": " ++
        q.name.getD "Project 2"]
    | _ =>
      ["\n### " ++ b.start ++ " - " ++ b.stop ++ ": " ++
        b.description.getD "Project Rotation 2"]
  | none => []

/-- The evening section (schedule.py lines 216-224). -/
def eveningLines (ev : Option EveningBlocks) : List String :=
  match ev with
  | some e =>
    "\n## ðŸŒ™ Evening\n" ::
      (optLine e.end_work (fun s => "- **" ++ s ++ "** - End work") ++
        optLine e.dinner (fun s => "- **" ++ s ++ "** - Dinner") ++
        optLine e.wind_down (fun s => "- **" ++ s ++ "** - Wind down"))
  | none => []

/-- The top-3 signal tasks section (schedule.py lines 227-232). -/
def taskLines (rot : List Project) : List String :=
  ["\n## ðŸŽ¯ Top 3 Signal Tasks\n", "1. Sigmavue - Current PRD phase"] ++
    (match rot with
      | p :: _ => ["2. " ++ p.name.getD "Project" ++ " - Check PRD status"]
      | [] => []) ++
    (match rot with
      | _ :: q :: _ => ["3. " ++ q.name.getD "Project" ++ " - Check PRD status"]
      | _ => [])

/-- The rotation selection the assembler performs (schedule.py lines
194-197): `select_rotation_projects(exclude_daily=["sigmavue"], num_slots=2)`
over the same project snapshot, in the case where the sort does not raise
(`generate_daily_schedule` checks the raising case separately and propagates
the error). -/
def rotationOf (projects : List Project) : List Project :=
  (rotationSort projects ["sigmavue"]).take 2

set_option linter.unusedVariables false in
/-- Embeds the body of `generate_daily_schedule` (schedule.py lines 145-236)
as the list of appended lines.  `prdDigest` models the imported
`get_project_prd_status` capability; the source imports it (schedule.py line
17) but never invokes it during assembly, so the parameter is unused. -/
def renderLines (prdDigest : Project → Option String) (template : Template)
    (projects : List Project) (d : Date) : List String :=
  ["# Schedule for " ++ strftimeLong d ++ "\n"] ++
    morningLines template d ++
    ["\n## ðŸ’¼ Work Blocks\n"] ++
    primaryLines template.work_blocks.primary projects ++
    breakLines template.work_blocks.break_1 ++
    rotation1Lines template.work_blocks.rotation_1 (rotationOf projects) ++
    rotation2Lines template.work_blocks.rotation_2 (rotationOf projects) ++
    eveningLines template.evening ++
    taskLines (rotationOf projects) ++
    ["\n---", "\n*Calendly calls override project blocks. Check your calendar.*"]

/-- Embeds `datetime.strptime(date_str, "%Y-%m-%d").date()` (schedule.py line
141): exactly four year digits, one or two month and day digits, and a valid
Gregorian date; `none` models the `ValueError` strptime raises otherwise. -/
def parse_ymd (s : String) : Option Date :=
  match splitOnChar '-' s.data with
  | [ys, ms, ds] =>
    if ys.length = 4 ∧ 1 ≤ ms.length ∧ ms.length ≤ 2 ∧ 1 ≤ ds.length ∧
        ds.length ≤ 2 then
      match digitsToNat? ys, digitsToNat? ms, digitsToNat? ds with
      | some y, some m, some d =>
        if 1 ≤ y ∧ 1 ≤ m ∧ m ≤ 12 ∧ 1 ≤ d ∧ d ≤ daysInMonth y m then
          some ⟨y, m, d⟩
        else none
      | _, _, _ => none
    else none
  | _ => none

/-- Assembly of one day's schedule given that the target date is settled
(schedule.py lines 145-238): the rotation sort runs first (its uncaught
`TypeError` on a mixed aware/naive snapshot propagates), then the joined
lines are returned. -/
def assembleFor (prdDigest : Project → Option String) (store : StoreResult)
    (projects : List Project) (d : Date) : Except String String :=
  match select_rotation_projects projects ["sigmavue"] 2 with
  | .error e => .error e
  | .ok _ =>
    .ok (String.intercalate "\n"
      (renderLines prdDigest (load_weekly_template store) projects d))

/-- Embeds `generate_daily_schedule` (schedule.py lines 128-238) over explicit
store snapshots.  Python tests `if date_str:` — truthiness — so `None` and
the empty string both fall back to today; a nonempty `date_str` is parsed
with `strptime(date_str, "%Y-%m-%d")` before anything else and a parse
failure is the uncaught `ValueError` the function raises, modelled as
`Except.error`. -/
def generate_daily_schedule (prdDigest : Project → Option String)
    (store : StoreResult) (projects : List Project) (today : Date)
    (date_str : Option String) : Except String String :=
  match date_str with
  | some s =>
    if s = "" then assembleFor prdDigest store projects today
    else
      match parse_ymd s with
      | some d => assembleFor prdDigest store projects d
      | none =>
        .error ("ValueError: time data " ++ s ++
          " does not match format %Y-%m-%d")
  | none => assembleFor prdDigest store projects today

/-! ### String-level helper lemmas -/

/-- Last character of a string, if any. -/
def lastCh (s : String) : Option Char := s.data.getLast?

/-- First character of a string, if any. -/
def firstCh (s : String) : Option Char := s.data.head?

theorem lastCh_append (a b : String) : lastCh (a ++ b) = (lastCh b).or (lastCh a) := by
  unfold lastCh
  rw [String.data_append]
  exact List.getLast?_append

theorem firstCh_append (a b : String) : firstCh (a ++ b) = (firstCh a).or (firstCh b) := by
  unfold firstCh
  rw [String.data_append]
  exact List.head?_append

theorem ne_of_lastCh {a b : String} {ca cb : Char} (ha : lastCh a = some ca)
    (hb : lastCh b = some cb) (hne : ca ≠ cb) : a ≠ b := by
  intro e
  rw [e, hb] at ha
  exact hne (Option.some.inj ha).symm

theorem ne_of_firstCh {a b : String} {ca cb : Char} (ha : firstCh a = some ca)
    (hb : firstCh b = some cb) (hne : ca ≠ cb) : a ≠ b := by
  intro e
  rw [e, hb] at ha
  exact hne (Option.some.inj ha).symm

theorem intercalate_go_length (s : String) :
    ∀ (l : List String) (acc : String),
      acc.length ≤ (String.intercalate.go acc s l).length := by
  intro l
  induction l with
  | nil => intro acc; simp [String.intercalate.go]
  | cons a as ih =>
    intro acc
    calc acc.length ≤ (acc ++ s ++ a).length := by
          rw [String.length_append, String.length_append]; omega
      _ ≤ _ := by rw [String.intercalate.go]; exact ih (acc ++ s ++ a)

theorem length_zero_eq_empty {s : String} (h : s.length = 0) : s = "" := by
  cases s with
  | mk l =>
    cases l with
    | nil => rfl
    | cons c cs => simp [String.length] at h

theorem intercalate_cons_ne_empty (s a : String) (l : List String)
    (ha : a ≠ "") : String.intercalate s (a :: l) ≠ "" := by
  have he : String.intercalate s (a :: l) = String.intercalate.go a s l := rfl
  rw [he]
  intro h
  have h1 := intercalate_go_length s l a
  rw [h] at h1
  exact ha (length_zero_eq_empty (Nat.le_zero.mp h1))

/-! ### Digest capabilities and further concrete inputs -/

/-- Digest capability that never returns a digest. -/
def noDigest : Project → Option String := fun _ => none

/-- Digest capability that always returns a recognisable sentinel text. -/
def sentinelDigest : Project → Option String :=
  fun _ => some "PRD DIGEST SENTINEL"

/-- Boolean substring test (`pat` occurs inside `s`). -/
def containsSubstr (s pat : String) : Bool := decide (pat.data <:+: s.data)

/-- The daily project bound to the primary block, with a configured PRD-status
locator. -/
def pSigmavue : Project :=
  { id := some "sigmavue", name := some "Sigmavue", path := some "/s",
    type := some "startup", priority := some 1, daily := some true,
    prd_status_path := some "docs/prds/.prd-status.json" }

/-- A date used in concrete assembler runs: 2024-01-01, a Monday. -/
def dMonday : Date := ⟨2024, 1, 1⟩

/-! ### Claims about the Schedule Assembler -/

/-- C4 (amended): `generate_daily_schedule` performs no PRD enrichment at all
— its output is independent of the PRD-digest capability (the imported
`get_project_prd_status` is never invoked), every project-bound block renders
without digest detail text, and consequently no digest fetch can ever fail the
assembly. -/
theorem schedule_prd_digest_independent (f g : Project → Option String)
    (t : Template) (ps : List Project) (d : Date) (store : StoreResult)
    (today : Date) (ds : Option String) :
    renderLines f t ps d = renderLines g t ps d ∧
      generate_daily_schedule f store ps today ds =
        generate_daily_schedule g store ps today ds :=
  ⟨rfl, rfl⟩

set_option maxRecDepth 10000 in
/-- Counterexample to C4 as stated: `pSigmavue` has a configured PRD-status
locator and is bound to the primary block, yet no line of the assembled
schedule contains the digest text the capability would return — no fetch is
attempted and nothing is appended. -/
theorem schedule_prd_digest_counterexample :
    pSigmavue.prd_status_path = some "docs/prds/.prd-status.json" ∧
      (renderLines sentinelDigest get_default_template [pSigmavue]
          dMonday).all
        (fun l => !(containsSubstr l "PRD DIGEST SENTINEL")) = true :=
  ⟨rfl, by decide⟩

/-- C7: whenever no weekly template is available — the client is unavailable,
the query raised, no `weekly_template` row exists, or the stored string failed
to parse — `load_weekly_template` returns the built-in default template, and
assembling against that default yields a non-empty schedule for every date
and every project snapshot on which the rotation sort does not raise. -/
theorem template_fallback (f : Project → Option String) (ps : List Project)
    (d : Date) :
    load_weekly_template .unavailable = get_default_template ∧
      load_weekly_template .raised = get_default_template ∧
      load_weekly_template .notFound = get_default_template ∧
      load_weekly_template (.foundString none) = get_default_template ∧
      renderLines f get_default_template ps d ≠ [] ∧
      (sortRaises (ps.filter (isCandidate ["sigmavue"])) = false →
        generate_daily_schedule f .notFound ps d none =
          .ok (String.intercalate "\n"
            (renderLines f get_default_template ps d))) ∧
      String.intercalate "\n" (renderLines f get_default_template ps d) ≠ "" := by
  refine ⟨rfl, rfl, rfl, rfl, ?_, ?_, ?_⟩
  · show ("# Schedule for " ++ strftimeLong d ++ "\n") :: _ ≠ []
    exact List.cons_ne_nil _ _
  · intro hr
    simp [generate_daily_schedule, assembleFor, select_rotation_projects, hr,
      load_weekly_template]
  show String.intercalate "\n"
    (("# Schedule for " ++ strftimeLong d ++ "\n") :: _) ≠ ""
  apply intercalate_cons_ne_empty
  intro h
  have h1 := congrArg String.length h
  rw [String.length_append, String.length_append] at h1
  have h2 : ("\n" : String).length = 1 := rfl
  have h3 : ("" : String).length = 0 := rfl
  omega

/-- Witness for C7 at a concrete input: with the template row missing, the
generator assembles the default template's schedule. -/
theorem template_fallback_witness :
    generate_daily_schedule noDigest .notFound [] dMonday none =
      .ok (String.intercalate "\n"
        (renderLines noDigest get_default_template [] dMonday)) :=
  (template_fallback noDigest [] dMonday).2.2.2.2.2.1 (by decide)

/-- C8 (amended): `generate_daily_schedule` returns a rendered schedule if
and only if `date_str` is falsy (absent or empty, by Python truthiness) or
parses as `%Y-%m-%d`, and the eligible rotation candidates do not mix
offset-aware and naive `last_worked` datetimes; a malformed nonempty
`date_str` raises the uncaught `strptime` `ValueError`, and a mixed snapshot
raises `TypeError` from the rotation sort, so the operation is not total in
its inputs. -/
theorem generate_daily_schedule_totality (f : Project → Option String)
    (store : StoreResult) (ps : List Project) (today : Date)
    (ds : Option String) :
    (generate_daily_schedule f store ps today ds).isOk = true ↔
      ((ds = none ∨ ds = some "" ∨
          ∃ s d, ds = some s ∧ s ≠ "" ∧ parse_ymd s = some d) ∧
        sortRaises (ps.filter (isCandidate ["sigmavue"])) = false) := by
  cases hr : sortRaises (ps.filter (isCandidate ["sigmavue"])) with
  | false =>
    cases ds with
    | none =>
      simp [generate_daily_schedule, assembleFor, select_rotation_projects,
        hr, Except.isOk, Except.toBool]
    | some s =>
      by_cases hs : s = ""
      · subst hs
        simp [generate_daily_schedule, assembleFor, select_rotation_projects,
          hr, Except.isOk, Except.toBool]
      · cases hp : parse_ymd s with
        | some d =>
          simp [generate_daily_schedule, assembleFor,
            select_rotation_projects, hr, hp, hs,
            Except.isOk, Except.toBool]
        | none =>
          simp [generate_daily_schedule, assembleFor,
            select_rotation_projects, hr, hp, hs,
            Except.isOk, Except.toBool]
  | true =>
    cases ds with
    | none =>
      simp [generate_daily_schedule, assembleFor, select_rotation_projects,
        hr, Except.isOk, Except.toBool]
    | some s =>
      by_cases hs : s = ""
      · subst hs
        simp [generate_daily_schedule, assembleFor, select_rotation_projects,
          hr, Except.isOk, Except.toBool]
      · cases hp : parse_ymd s with
        | some d =>
          simp [generate_daily_schedule, assembleFor,
            select_rotation_projects, hr, hp, if_neg hs,
            Except.isOk, Except.toBool]
        | none =>
          simp [generate_daily_schedule, assembleFor,
            select_rotation_projects, hr, hp, if_neg hs,
            Except.isOk, Except.toBool]

/-- Counterexample to C8 as stated: on `date_str = "not-a-date"` the schedule
generator raises (returns an error) instead of returning a schedule. -/
theorem generate_daily_schedule_raises_counterexample :
    generate_daily_schedule noDigest .notFound [] dMonday
        (some "not-a-date") =
      .error "ValueError: time data not-a-date does not match format %Y-%m-%d" := by
  rfl

/-! ### Character facts distinguishing the assembler's line shapes -/

theorem lastCh_append_right {x suf : String} {c : Char}
    (hs : lastCh suf = some c) : lastCh (x ++ suf) = some c := by
  rw [lastCh_append, hs]
  rfl

theorem firstCh_append_left {pre x : String} {c : Char}
    (hp : firstCh pre = some c) : firstCh (pre ++ x) = some c := by
  rw [firstCh_append, hp]
  rfl

theorem lastCh_gymLine (g : GymConfig) : lastCh (gymLine g) = some ')' := by
  have h : lastCh " min)" = some ')' := rfl
  simp [gymLine, lastCh_append, h]

theorem firstCh_gymLine (g : GymConfig) : firstCh (gymLine g) = some '-' := by
  have h : firstCh "- **" = some '-' := rfl
  simp [gymLine, firstCh_append, h]

theorem lastCh_wakeLine (s : String) : lastCh (wakeLine s) = some 'p' :=
  lastCh_append_right rfl

theorem lastCh_stretchLine (s : String) : lastCh (stretchLine s) = some 'y' :=
  lastCh_append_right rfl

theorem lastCh_showerLine (s : String) : lastCh (showerLine s) = some 'r' :=
  lastCh_append_right rfl

theorem lastCh_readyLine (s : String) : lastCh (readyLine s) = some 'e' :=
  lastCh_append_right rfl

/-! Last/first characters of the fixed literal pieces of each line shape. -/

theorem lastCh_fire : lastCh " ðŸ”¥" = some '¥' := rfl

theorem lastCh_nonneg :
    lastCh "  â†’ Non-negotiable deep work block" = some 'k' := rfl

theorem lastCh_breakSuf : lastCh ": Break â˜•" = some '•' := rfl

theorem lastCh_checkPrd : lastCh " - Check PRD status" = some 's' := rfl

theorem lastCh_task1 : lastCh "1. Sigmavue - Current PRD phase" = some 'e' := rfl

theorem lastCh_morningHdr : lastCh "## ðŸŒ… Morning Routine\n" = some '\n' := rfl

theorem lastCh_workHdr : lastCh "\n## ðŸ’¼ Work Blocks\n" = some '\n' := rfl

theorem lastCh_eveningHdr : lastCh "\n## ðŸŒ™ Evening\n" = some '\n' := rfl

theorem lastCh_taskHdr : lastCh "\n## ðŸŽ¯ Top 3 Signal Tasks\n" = some '\n' := rfl

theorem lastCh_rule : lastCh "\n---" = some '-' := rfl

theorem lastCh_footer :
    lastCh "\n*Calendly calls override project blocks. Check your calendar.*" =
      some '*' := rfl

theorem lastCh_nl : lastCh "\n" = some '\n' := rfl

theorem lastCh_endWorkSuf : lastCh "** - End work" = some 'k' := rfl

theorem lastCh_dinnerSuf : lastCh "** - Dinner" = some 'r' := rfl

theorem lastCh_windDownSuf : lastCh "** - Wind down" = some 'n' := rfl

theorem firstCh_rotHdr : firstCh "\n### " = some '\n' := rfl

/-- The element of `optLine v mk` is avoided by any string that differs from
every output of `mk`. -/
theorem notin_optLine {x : String} {v : Option String} {mk : String → String}
    (h : ∀ s : String, x ≠ mk s) : x ∉ optLine v mk := by
  cases v with
  | none => simp [optLine]
  | some s =>
    by_cases he : s = ""
    · simp [optLine, he]
    · simp [optLine, he, h s]

/-- A string that differs from every gym line avoids `gymLines`. -/
theorem notin_gymLines {x : String} (h : ∀ gc : GymConfig, x ≠ gymLine gc)
    {g : Option GymConfig} {d : Date} : x ∉ gymLines g d := by
  cases g with
  | none => simp [gymLines]
  | some gc =>
    by_cases hd : get_day_name d ∈ gc.days.getD []
    · simp [gymLines, hd, h gc]
    · simp [gymLines, hd]

theorem notin_primaryLines {x : String} {c : Char} (hx : lastCh x = some c)
    (h1 : c ≠ '¥') (h2 : c ≠ 'k') (wb : Option WorkBlock)
    (ps : List Project) : x ∉ primaryLines wb ps := by
  cases wb with
  | none => simp [primaryLines]
  | some b =>
    intro hm
    simp only [primaryLines, List.mem_cons, List.not_mem_nil, or_false] at hm
    rcases hm with hm | hm
    · exact ne_of_lastCh hx (lastCh_append_right lastCh_fire) h1 hm
    · exact ne_of_lastCh hx lastCh_nonneg h2 hm

theorem notin_breakLines {x : String} {c : Char} (hx : lastCh x = some c)
    (h1 : c ≠ '•') (wb : Option WorkBlock) : x ∉ breakLines wb := by
  cases wb with
  | none => simp [breakLines]
  | some b =>
    intro hm
    exact ne_of_lastCh hx (lastCh_append_right lastCh_breakSuf) h1
      (List.mem_singleton.mp hm)

/-- First character of a rotation-slot line is the newline of its leading
literal. -/
theorem firstCh_rotShape (s1 s2 s3 s4 s5 : String) :
    firstCh ("\n### " ++ s1 ++ s2 ++ s3 ++ s4 ++ s5) = some '\n' :=
  firstCh_append_left (firstCh_append_left (firstCh_append_left
    (firstCh_append_left (firstCh_append_left firstCh_rotHdr))))

theorem notin_rotation1Lines {x : String} {c : Char} (hx : firstCh x = some c)
    (h1 : c ≠ '\n') (wb : Option WorkBlock) (rot : List Project) :
    x ∉ rotation1Lines wb rot := by
  cases wb with
  | none => simp [rotation1Lines]
  | some b =>
    intro hm
    unfold rotation1Lines at hm
    cases rot with
    | cons p rest =>
      exact ne_of_firstCh hx (firstCh_rotShape _ _ _ _ _) h1
        (List.mem_singleton.mp hm)
    | nil =>
      exact ne_of_firstCh hx (firstCh_rotShape _ _ _ _ _) h1
        (List.mem_singleton.mp hm)

theorem notin_rotation2Lines {x : String} {c : Char} (hx : firstCh x = some c)
    (h1 : c ≠ '\n') (wb : Option WorkBlock) (rot : List Project) :
    x ∉ rotation2Lines wb rot := by
  cases wb with
  | none => simp [rotation2Lines]
  | some b =>
    intro hm
    unfold rotation2Lines at hm
    match rot, hm with
    | _ :: q :: _, hm =>
      exact ne_of_firstCh hx (firstCh_rotShape _ _ _ _ _) h1
        (List.mem_singleton.mp hm)
    | [], hm =>
      exact ne_of_firstCh hx (firstCh_rotShape _ _ _ _ _) h1
        (List.mem_singleton.mp hm)
    | [_], hm =>
      exact ne_of_firstCh hx (firstCh_rotShape _ _ _ _ _) h1
        (List.mem_singleton.mp hm)

theorem notin_eveningLines {x : String} {c : Char} (hx : lastCh x = some c)
    (h1 : c ≠ '\n') (h2 : c ≠ 'k') (h3 : c ≠ 'r') (h4 : c ≠ 'n')
    (ev : Option EveningBlocks) : x ∉ eveningLines ev := by
  cases ev with
  | none => simp [eveningLines]
  | some e =>
    intro hm
    simp only [eveningLines, List.append_assoc, List.mem_cons,
      List.mem_append] at hm
    rcases hm with hm | hm | hm | hm
    · exact ne_of_lastCh hx lastCh_eveningHdr h1 hm
    · exact notin_optLine
        (fun s => ne_of_lastCh hx (lastCh_append_right lastCh_endWorkSuf) h2)
        hm
    · exact notin_optLine
        (fun s => ne_of_lastCh hx (lastCh_append_right lastCh_dinnerSuf) h3)
        hm
    · exact notin_optLine
        (fun s => ne_of_lastCh hx (lastCh_append_right lastCh_windDownSuf) h4)
        hm

theorem notin_taskLines {x : String} {c : Char} (hx : lastCh x = some c)
    (h1 : c ≠ '\n') (h2 : c ≠ 'e') (h3 : c ≠ 's') (rot : List Project) :
    x ∉ taskLines rot := by
  intro hm
  simp only [taskLines, List.append_assoc, List.cons_append, List.nil_append,
    List.mem_append, List.mem_cons, List.not_mem_nil, or_false] at hm
  rcases hm with hm | hm | hm | hm
  · exact ne_of_lastCh hx lastCh_taskHdr h1 hm
  · exact ne_of_lastCh hx lastCh_task1 h2 hm
  · match rot, hm with
    | p :: _, hm =>
      exact ne_of_lastCh hx (lastCh_append_right lastCh_checkPrd) h3
        (List.mem_singleton.mp hm)
  · match rot, hm with
    | _ :: q :: _, hm =>
      exact ne_of_lastCh hx (lastCh_append_right lastCh_checkPrd) h3
        (List.mem_singleton.mp hm)

/-- Membership in the assembled lines splits into the eleven syntactic
sections of `renderLines`. -/
theorem mem_renderLines_cases {x : String} {f : Project → Option String}
    {t : Template} {ps : List Project} {d : Date}
    (hm : x ∈ renderLines f t ps d) :
    x = "# Schedule for " ++ strftimeLong d ++ "\n" ∨
      x ∈ morningLines t d ∨
      x = "\n## ðŸ’¼ Work Blocks\n" ∨
      x ∈ primaryLines t.work_blocks.primary ps ∨
      x ∈ breakLines t.work_blocks.break_1 ∨
      x ∈ rotation1Lines t.work_blocks.rotation_1 (rotationOf ps) ∨
      x ∈ rotation2Lines t.work_blocks.rotation_2 (rotationOf ps) ∨
      x ∈ eveningLines t.evening ∨
      x ∈ taskLines (rotationOf ps) ∨
      x = "\n---" ∨
      x = "\n*Calendly calls override project blocks. Check your calendar.*" := by
  unfold renderLines at hm
  simpa only [List.append_assoc, List.cons_append, List.nil_append,
    List.mem_append, List.mem_cons, List.not_mem_nil, or_false] using hm

/-- Membership in the morning section splits into its six pieces. -/
theorem mem_morningLines_cases {x : String} {t : Template} {d : Date}
    (hm : x ∈ morningLines t d) :
    x = "## ðŸŒ… Morning Routine\n" ∨
      x ∈ optLine t.personal_blocks.wake wakeLine ∨
      x ∈ gymLines t.personal_blocks.gym d ∨
      x ∈ optLine t.personal_blocks.stretch stretchLine ∨
      x ∈ optLine t.personal_blocks.shower showerLine ∨
      x ∈ optLine t.personal_blocks.ready readyLine := by
  unfold morningLines at hm
  simpa only [List.append_assoc, List.mem_cons, List.mem_append] using hm

/-! ### Claims C5 and C6 -/

/-- ASCII-lowercasing of a string, used to express the spec's case-insensitive
membership test. -/
def lowerStr (s : String) : String := ⟨s.data.map Char.toLower⟩

/-- The spec's claimed case-insensitive membership of a weekday name in a
day-set. -/
def ciMember (x : String) (l : List String) : Bool :=
  l.any (fun s => lowerStr s == lowerStr x)

/-- The default template's gym configuration. -/
def gymDefault : GymConfig :=
  { time := "8:00 AM", days := some ["monday", "wednesday", "friday"],
    duration_minutes := some 90 }

/-- A gym configuration whose day-set names Monday with a capital letter. -/
def gymMonday : GymConfig :=
  { time := "8:00 AM", days := some ["Monday"], duration_minutes := some 90 }

/-- The default template with the gym day-set spelled `["Monday"]`. -/
def tCaseSensitive : Template :=
  { get_default_template with
      personal_blocks :=
        { get_default_template.personal_blocks with gym := some gymMonday } }

/-- The default template with an empty `work_blocks` collection. -/
def tNoWork : Template :=
  { get_default_template with work_blocks := ⟨none, none, none, none⟩ }

/-- C5 (amended): a gym block carrying a day-set is included in the assembled
schedule exactly when the target date's lowercase weekday name is literally
(case-sensitively) a member of that set; a gym block without a day-set is
never included (the set defaults to empty); and a scalar personal block such
as `wake`, which has no day-set, is included whenever it is nonempty,
regardless of the weekday. -/
theorem schedule_weekday_filter (f : Project → Option String) (t : Template)
    (ps : List Project) (d : Date) (g : GymConfig)
    (hg : t.personal_blocks.gym = some g) :
    (gymLine g ∈ renderLines f t ps d ↔ get_day_name d ∈ g.days.getD []) ∧
      (g.days = none → gymLine g ∉ renderLines f t ps d) ∧
      (∀ w, t.personal_blocks.wake = some w → w ≠ "" →
        wakeLine w ∈ renderLines f t ps d) := by
  have hiff : gymLine g ∈ renderLines f t ps d ↔
      get_day_name d ∈ g.days.getD [] := by
    constructor
    · intro hm
      rcases mem_renderLines_cases hm with
        h | h | h | h | h | h | h | h | h | h | h
      · exact absurd h (ne_of_lastCh (lastCh_gymLine g)
          (lastCh_append_right lastCh_nl) (by decide))
      · rcases mem_morningLines_cases h with h | h | h | h | h | h
        · exact absurd h (ne_of_lastCh (lastCh_gymLine g) lastCh_morningHdr
            (by decide))
        · exact absurd h (notin_optLine (fun s =>
            ne_of_lastCh (lastCh_gymLine g) (lastCh_wakeLine s) (by decide)))
        · rw [hg] at h
          by_cases hd : get_day_name d ∈ g.days.getD []
          · exact hd
          · simp [gymLines, hd] at h
        · exact absurd h (notin_optLine (fun s =>
            ne_of_lastCh (lastCh_gymLine g) (lastCh_stretchLine s)
              (by decide)))
        · exact absurd h (notin_optLine (fun s =>
            ne_of_lastCh (lastCh_gymLine g) (lastCh_showerLine s)
              (by decide)))
        · exact absurd h (notin_optLine (fun s =>
            ne_of_lastCh (lastCh_gymLine g) (lastCh_readyLine s) (by decide)))
      · exact absurd h (ne_of_lastCh (lastCh_gymLine g) lastCh_workHdr
          (by decide))
      · exact absurd h (notin_primaryLines (lastCh_gymLine g) (by decide)
          (by decide) _ _)
      · exact absurd h (notin_breakLines (lastCh_gymLine g) (by decide) _)
      · exact absurd h (notin_rotation1Lines (firstCh_gymLine g) (by decide)
          _ _)
      · exact absurd h (notin_rotation2Lines (firstCh_gymLine g) (by decide)
          _ _)
      · exact absurd h (notin_eveningLines (lastCh_gymLine g) (by decide)
          (by decide) (by decide) (by decide) _)
      · exact absurd h (notin_taskLines (lastCh_gymLine g) (by decide)
          (by decide) (by decide) _)
      · exact absurd h (ne_of_lastCh (lastCh_gymLine g) lastCh_rule
          (by decide))
      · exact absurd h (ne_of_lastCh (lastCh_gymLine g) lastCh_footer
          (by decide))
    · intro hd
      unfold renderLines morningLines
      rw [hg]
      simp [gymLines, hd]
  refine ⟨hiff, fun hdn hmem => ?_, fun w hw hwne => ?_⟩
  · have h := hiff.mp hmem
    rw [hdn] at h
    simp at h
  · unfold renderLines morningLines
    rw [hw]
    simp [optLine, hwne]

/-- Witness for C5's amended theorem at a concrete input: the default gym
block (days mon/wed/fri) appears in the schedule assembled for Monday
2024-01-01. -/
theorem schedule_weekday_filter_witness :
    gymLine gymDefault ∈ renderLines noDigest get_default_template [] dMonday :=
  (schedule_weekday_filter noDigest get_default_template [] dMonday gymDefault
      rfl).1.mpr (by decide)

/-- Counterexample to C5 as stated: a day-set containing `"Monday"` matches a
Monday date case-insensitively, yet the gym block is not included in the
schedule assembled for Monday 2024-01-01 — the membership test is
case-sensitive. -/
theorem schedule_weekday_filter_counterexample :
    tCaseSensitive.personal_blocks.gym = some gymMonday ∧
      gymMonday.days = some ["Monday"] ∧
      ciMember (get_day_name dMonday) ["Monday"] = true ∧
      (renderLines noDigest tCaseSensitive [] dMonday).all
        (fun l => !(l == gymLine gymMonday)) = true :=
  ⟨rfl, rfl, by decide, by decide⟩

set_option linter.unusedVariables false in
/-- C6 (amended): for a template whose `work_blocks` collection is empty, the
assembler still renders the morning personal blocks and produces a non-empty
line list without erroring, but it appends no `"no work blocks configured"`
marker (no such line exists anywhere in the source; indeed the proof does not
even need the emptiness hypothesis). -/
theorem empty_work_blocks_schedule (f : Project → Option String)
    (t : Template) (ps : List Project) (d : Date)
    (hw : t.work_blocks = ⟨none, none, none, none⟩) :
    morningLines t d <+ renderLines f t ps d ∧
      renderLines f t ps d ≠ [] ∧
      "no work blocks configured" ∉ renderLines f t ps d := by
  have hlast : lastCh "no work blocks configured" = some 'd' := rfl
  have hfirst : firstCh "no work blocks configured" = some 'n' := rfl
  refine ⟨?_, ?_, ?_⟩
  · unfold renderLines
    exact ((((((((List.sublist_append_right _ _).trans
      (List.sublist_append_left _ _)).trans
      (List.sublist_append_left _ _)).trans
      (List.sublist_append_left _ _)).trans
      (List.sublist_append_left _ _)).trans
      (List.sublist_append_left _ _)).trans
      (List.sublist_append_left _ _)).trans
      (List.sublist_append_left _ _)).trans
      (List.sublist_append_left _ _)
  · show ("# Schedule for " ++ strftimeLong d ++ "\n") :: _ ≠ []
    exact List.cons_ne_nil _ _
  · intro hm
    rcases mem_renderLines_cases hm with h | h | h | h | h | h | h | h | h | h | h
    · exact ne_of_lastCh hlast (lastCh_append_right lastCh_nl) (by decide) h
    · rcases mem_morningLines_cases h with h | h | h | h | h | h
      · exact ne_of_lastCh hlast lastCh_morningHdr (by decide) h
      · exact notin_optLine (fun s =>
          ne_of_lastCh hlast (lastCh_wakeLine s) (by decide)) h
      · exact notin_gymLines (fun gc =>
          ne_of_lastCh hlast (lastCh_gymLine gc) (by decide)) h
      · exact notin_optLine (fun s =>
          ne_of_lastCh hlast (lastCh_stretchLine s) (by decide)) h
      · exact notin_optLine (fun s =>
          ne_of_lastCh hlast (lastCh_showerLine s) (by decide)) h
      · exact notin_optLine (fun s =>
          ne_of_lastCh hlast (lastCh_readyLine s) (by decide)) h
    · exact ne_of_lastCh hlast lastCh_workHdr (by decide) h
    · exact notin_primaryLines hlast (by decide) (by decide) _ _ h
    · exact notin_breakLines hlast (by decide) _ h
    · exact notin_rotation1Lines hfirst (by decide) _ _ h
    · exact notin_rotation2Lines hfirst (by decide) _ _ h
    · exact notin_eveningLines hlast (by decide) (by decide) (by decide)
        (by decide) _ h
    · exact notin_taskLines hlast (by decide) (by decide) (by decide) _ h
    · exact ne_of_lastCh hlast lastCh_rule (by decide) h
    · exact ne_of_lastCh hlast lastCh_footer (by decide) h

/-- Witness for C6's amended theorem at a concrete input. -/
theorem empty_work_blocks_schedule_witness :
    renderLines noDigest tNoWork [] dMonday ≠ [] :=
  (empty_work_blocks_schedule noDigest tNoWork [] dMonday rfl).2.1

set_option maxRecDepth 10000 in
/-- Counterexample to C6 as stated: with an empty `work_blocks` collection the
assembled schedule contains no `"no work blocks configured"` text at all (and
is still non-empty). -/
theorem empty_work_blocks_counterexample :
    tNoWork.work_blocks = ⟨none, none, none, none⟩ ∧
      (renderLines noDigest tNoWork [] dMonday).all
        (fun l => !(containsSubstr l "no work blocks configured")) = true ∧
      renderLines noDigest tNoWork [] dMonday ≠ [] :=
  ⟨rfl, by decide, by decide⟩

end Donna
